import Mathlib

/-!
Verification of the verletSoftBody 2D point-mass physics core.

The repository has two source files:
* `src/Main.js` — classes `Geometry.Vector`, `Physics.Node`, `Physics.Spring`,
  `Physics.Behavior.GravityBehavior`, `Physics.Constraint.RectangleConstraint`,
  `Physics.World`.  Embedded here in namespace `Physics`, with coordinates as
  real numbers.
* `src/main.js` — classes `Vector`, `Node`, `Constraint` (a spring), `Solver`
  with the boundary/friction constraint `applyBounds`.  Embedded here in
  namespace `Solver`, with coordinates as rational numbers (none of its
  operations under verification uses `sqrt`), so everything is executable.

JavaScript number semantics relevant to the claims (division by zero giving
`Infinity`, `0 * Infinity` giving `NaN`, truthiness of `0`) are modelled
explicitly where a claim depends on them (`JsNum` below, and the `Option`
argument of `Physics.springRestLength`).
-/

namespace Physics

/-- `Geometry.Vector` of `src/Main.js`: an immutable pair of coordinates.
`clone()` is the identity in a value semantics and is not modelled. -/
structure Vec where
  x : ℝ
  y : ℝ

/-- `Geometry.Vector.add`. -/
def Vec.add (a b : Vec) : Vec := ⟨a.x + b.x, a.y + b.y⟩

/-- `Geometry.Vector.subtract`. -/
def Vec.subtract (a b : Vec) : Vec := ⟨a.x - b.x, a.y - b.y⟩

/-- `Geometry.Vector.multiply` (component-wise). -/
def Vec.multiply (a b : Vec) : Vec := ⟨a.x * b.x, a.y * b.y⟩

/-- `Geometry.Vector.multiplyScaler`. -/
def Vec.multiplyScaler (a : Vec) (c : ℝ) : Vec := ⟨a.x * c, a.y * c⟩

/-- `Geometry.Vector.dot` (static). -/
def Vec.dot (a b : Vec) : ℝ := a.x * b.x + a.y * b.y

/-- `Geometry.Vector.length2`: `dot(this, this)`. -/
def Vec.length2 (a : Vec) : ℝ := Vec.dot a a

/-- `Geometry.Vector.length`: `Math.sqrt(this.length2())`. -/
noncomputable def Vec.length (a : Vec) : ℝ := Real.sqrt a.length2

/-- `Geometry.Vector.normal`: multiplies by `1 / length()`, with no guard
against a zero length (the IEEE consequences of the unguarded division are
modelled separately by `JsNum.jsNormal`; over ℝ, `1 / 0 = 0` here). -/
noncomputable def Vec.normal (a : Vec) : Vec :=
  let invLength := 1 / a.length
  ⟨a.x * invLength, a.y * invLength⟩

/-- `Geometry.Vector.min` (static, component-wise). -/
def Vec.vmin (a b : Vec) : Vec := ⟨min a.x b.x, min a.y b.y⟩

/-- `Geometry.Vector.max` (static, component-wise). -/
def Vec.vmax (a b : Vec) : Vec := ⟨max a.x b.x, max a.y b.y⟩

/-- `Geometry.Vector.clamp` (static): `max(min(a, max), min)`. -/
def Vec.clamp (a lo hi : Vec) : Vec := Vec.vmax (Vec.vmin a hi) lo

/-- `Geometry.Vector.zero` (static). -/
def Vec.zero : Vec := ⟨0, 0⟩

/-- `Geometry.Rectangle` of `src/Main.js`. -/
structure Rectangle where
  position : Vec
  scale : Vec

/-- `Physics.Node` of `src/Main.js`. -/
structure Node where
  position : Vec
  positionLast : Vec
  acceleration : Vec
  velocity : Vec
  isStatic : Bool

/-- The `Physics.Node` constructor: `positionLast` starts as a copy of
`position`, `acceleration` and `velocity` start at zero, `isStatic` at
`false`. -/
def Node.create (p : Vec) : Node :=
  ⟨p, p, Vec.zero, Vec.zero, false⟩

/-- A node as constructed and then pinned through the externally exposed
`isStatic` write (the constructor itself always sets `isStatic = false`). -/
def Node.createStatic (p : Vec) : Node :=
  { Node.create p with isStatic := true }

/-- `Physics.Node.applyImpulse`: displaces `position` unless `isStatic`. -/
def Node.applyImpulse (n : Node) (impulse : Vec) : Node :=
  if n.isStatic then n else { n with position := n.position.add impulse }

/-- `Physics.Node.applyForce`: accumulates into `acceleration` unless
`isStatic`. -/
def Node.applyForce (n : Node) (force : Vec) : Node :=
  if n.isStatic then n else { n with acceleration := n.acceleration.add force }

/-- `Physics.Node.updatePosition`: Verlet integration.  It performs, in
order: `velocity = position - positionLast`; `positionLast = position`;
`position = position + velocity + acceleration * dt * dt`;
`acceleration = zero`.  It never reads `isStatic`. -/
def Node.updatePosition (n : Node) (deltaTime : ℝ) : Node :=
  let velocity := n.position.subtract n.positionLast
  let positionLast := n.position
  let position :=
    (n.position.add velocity).add (n.acceleration.multiplyScaler (deltaTime * deltaTime))
  { n with position := position, positionLast := positionLast,
           velocity := velocity, acceleration := Vec.zero }

/-- The `restLength` stored by the `Physics.Spring` constructor.  The source
takes `restLength = null` as default and tests `if (restLength)`: JavaScript
truthiness, under which both `null` (here `none`) and the number `0` (here
`some 0`) fail the test and fall back to the distance
`nodes[0].position.subtract(nodes[1].position).length()`. -/
noncomputable def springRestLength (a b : Node) (restLength : Option ℝ) : ℝ :=
  match restLength with
  | some r => if r = 0 then (a.position.subtract b.position).length else r
  | none => (a.position.subtract b.position).length

/-- The local `movement` of `Physics.Spring.relax`:
`delta.normal().multiplyScaler(stiffness * (delta.length() - restLength))`
with `delta = nodes[0].position.subtract(nodes[1].position)`. -/
noncomputable def relaxMovement (a b : Node) (stiffness restLength : ℝ) : Vec :=
  let delta := a.position.subtract b.position
  delta.normal.multiplyScaler (stiffness * (delta.length - restLength))

/-- `Physics.Spring.relax`, acting on the pair of referenced nodes.  The
source mutates the two nodes the spring references; here the updated pair is
returned (first component `nodes[0]`, second `nodes[1]`). -/
noncomputable def relaxPair (a b : Node) (stiffness restLength : ℝ) : Node × Node :=
  let delta := a.position.subtract b.position
  if delta.x ≠ 0 ∨ delta.y ≠ 0 then
    let movement := relaxMovement a b stiffness restLength
    if a.isStatic then
      (a, b.applyImpulse movement)
    else if b.isStatic then
      (a.applyImpulse (movement.multiplyScaler (-0.2)), b)
    else
      (a.applyImpulse (movement.multiplyScaler (-0.5)),
       b.applyImpulse (movement.multiplyScaler 0.5))
  else
    (a, b)

/-- One externally reachable operation on a single node: the three `Node`
methods callable by behaviors, constraints, springs and the interaction
layer. -/
inductive NodeOp where
  | force (f : Vec)
  | impulse (i : Vec)
  | update (deltaTime : ℝ)

/-- Run one `NodeOp` on a node. -/
def applyOp (n : Node) : NodeOp → Node
  | .force f => n.applyForce f
  | .impulse i => n.applyImpulse i
  | .update dt => n.updatePosition dt

/-- Run a sequence of `NodeOp`s left to right. -/
def applyOps (n : Node) (ops : List NodeOp) : Node :=
  ops.foldl applyOp n

/-- `Physics.Spring` as stored in a `Physics.World`.  The source spring holds
references to two node objects owned by the world; that aliasing is modelled
as a pair of indices into the world's node list. -/
structure Spring where
  iA : ℕ
  iB : ℕ
  stiffness : ℝ
  restLength : ℝ

/-- `Physics.Behavior`: the only variant in the source is
`GravityBehavior { force }`, whose `apply(node)` is
`node.applyForce(this.force)`. -/
structure Behavior where
  force : Vec

/-- `Physics.Behavior.GravityBehavior.apply`. -/
def Behavior.apply (b : Behavior) (n : Node) : Node :=
  n.applyForce b.force

/-- `Physics.Constraint`: the only variant in the source is
`RectangleConstraint { rectangle }`. -/
structure Constraint where
  rectangle : Rectangle

/-- `Physics.Constraint.RectangleConstraint.apply`: impulse by
`clamp(position, rect.position, rect.position + rect.scale) - position`. -/
def Constraint.apply (c : Constraint) (n : Node) : Node :=
  n.applyImpulse
    ((Vec.clamp n.position c.rectangle.position
        (c.rectangle.position.add c.rectangle.scale)).subtract n.position)

/-- `Physics.Spring.relax` acting through the world's node list: read the two
referenced nodes, relax, write both back.  Out-of-range indices leave the
list unchanged (in the source a spring always references live nodes). -/
noncomputable def Spring.relaxIn (s : Spring) (nodes : List Node) : List Node :=
  match nodes[s.iA]?, nodes[s.iB]? with
  | some a, some b =>
    let ab := relaxPair a b s.stiffness s.restLength
    (nodes.set s.iA ab.1).set s.iB ab.2
  | _, _ => nodes

/-- `Physics.World` of `src/Main.js`.  The constructor sets
`deltaTime = 1 / 60` and empty collections. -/
structure World where
  deltaTime : ℝ
  nodes : List Node
  springs : List Spring
  behaviors : List Behavior
  constraints : List Constraint

/-- `Physics.World.step`, transcribed loop by loop:
`behaviors.forEach(b => nodes.forEach(n => b.apply(n)))`;
`nodes.forEach(n => n.updatePosition(deltaTime))`;
`constraints.forEach(c => nodes.forEach(n => c.apply(n)))`;
`springs.forEach(s => s.relax())`. -/
noncomputable def World.step (w : World) : World :=
  let n1 := w.behaviors.foldl (fun ns b => ns.map b.apply) w.nodes
  let n2 := n1.map (fun n => n.updatePosition w.deltaTime)
  let n3 := w.constraints.foldl (fun ns c => ns.map c.apply) n2
  let n4 := w.springs.foldl (fun ns s => s.relaxIn ns) n3
  { w with nodes := n4 }

/-- Spec-side reading of the behavior phase (for the refinement claim about
`step`): every node accumulates, in registration order, the force of every
registered behavior. -/
def behaviorsPerNode (bs : List Behavior) (n : Node) : Node :=
  bs.foldl (fun n b => b.apply n) n

/-- Spec-side reading of the constraint phase: every node receives, in
registration order, every registered hard constraint. -/
def constraintsPerNode (cs : List Constraint) (n : Node) : Node :=
  cs.foldl (fun n c => c.apply n) n

end Physics

namespace JsNum

/-- A JavaScript number as far as the claims need it: `NaN`, a signed
infinity (`true` = positive), or a finite real.  Signed zero is not
distinguished. -/
inductive JsVal where
  | nan : JsVal
  | inf : Bool → JsVal
  | fin : ℝ → JsVal

/-- IEEE-754 multiplication on `JsVal`: `NaN` propagates, zero times an
infinity is `NaN`, a nonzero finite times an infinity is an infinity of the
product sign. -/
noncomputable def jsMul : JsVal → JsVal → JsVal
  | .nan, _ => .nan
  | _, .nan => .nan
  | .fin a, .fin b => .fin (a * b)
  | .fin a, .inf s => if a = 0 then .nan else .inf ((0 < a) = s)
  | .inf s, .fin a => if a = 0 then .nan else .inf ((0 < a) = s)
  | .inf s, .inf t => .inf (s = t)

/-- IEEE-754 division on `JsVal`, as much as `normal()` exercises: a nonzero
finite over (positive) zero is an infinity of the numerator's sign, `0 / 0`
is `NaN`, finite over infinity is zero, infinity over infinity is `NaN`. -/
noncomputable def jsDiv : JsVal → JsVal → JsVal
  | .nan, _ => .nan
  | _, .nan => .nan
  | .fin a, .fin b =>
    if b = 0 then (if a = 0 then .nan else .inf (0 < a)) else .fin (a / b)
  | .fin _, .inf _ => .fin 0
  | .inf s, .fin b => if 0 ≤ b then .inf s else .inf !s
  | .inf _, .inf _ => .nan

/-- `Vector.length` under JavaScript arithmetic, at a finite vector:
`Math.sqrt(x * x + y * y)` is finite and nonnegative. -/
noncomputable def jsLength (x y : ℝ) : JsVal :=
  .fin (Real.sqrt (x * x + y * y))

/-- `Vector.normal` under JavaScript arithmetic, at a finite vector:
`invLength = 1 / length()`, components `x * invLength` and `y * invLength`,
with no guard against `length() == 0`. -/
noncomputable def jsNormal (x y : ℝ) : JsVal × JsVal :=
  let invLength := jsDiv (.fin 1) (jsLength x y)
  (jsMul (.fin x) invLength, jsMul (.fin y) invLength)

end JsNum

namespace Solver

/-- `Vector` of `src/main.js` (2D, numbers default to `0`).  The solver's
operations under verification use only the coordinatewise arithmetic, so
coordinates are rationals and everything is executable; the source's
`length`/`normal` (which need `sqrt`) are exercised only by `Constraint`
/ the picker, not by `applyBounds` or `update`. -/
structure Vec where
  x : ℚ
  y : ℚ
deriving DecidableEq

/-- `Vector.add`. -/
def Vec.add (a b : Vec) : Vec := ⟨a.x + b.x, a.y + b.y⟩

/-- `Vector.subtract`. -/
def Vec.subtract (a b : Vec) : Vec := ⟨a.x - b.x, a.y - b.y⟩

/-- `Vector.multiplyScaler`. -/
def Vec.multiplyScaler (a : Vec) (c : ℚ) : Vec := ⟨a.x * c, a.y * c⟩

/-- `Node` of `src/main.js`: like `Physics.Node` but with no `isStatic`
flag. -/
structure Node where
  position : Vec
  positionLast : Vec
  acceleration : Vec
  velocity : Vec
deriving DecidableEq

/-- `Node.applyImpulse` (unconditional in `src/main.js`). -/
def Node.applyImpulse (n : Node) (force : Vec) : Node :=
  { n with position := n.position.add force }

/-- `Node.applyForce` (unconditional in `src/main.js`). -/
def Node.applyForce (n : Node) (force : Vec) : Node :=
  { n with acceleration := n.acceleration.add force }

/-- `Node.update` of `src/main.js`: the same Verlet step as
`Physics.Node.updatePosition`. -/
def Node.update (n : Node) (deltaTime : ℚ) : Node :=
  let velocity := n.position.subtract n.positionLast
  let positionLast := n.position
  let position :=
    (n.position.add velocity).add (n.acceleration.multiplyScaler (deltaTime * deltaTime))
  { position := position, positionLast := positionLast,
    velocity := velocity, acceleration := ⟨0, 0⟩ }

/-- `Math.sign` on a rational. -/
def sign (q : ℚ) : ℚ :=
  if 0 < q then 1 else if q < 0 then -1 else 0

/-- The fields of `Solver` that `applyBounds` reads. -/
structure Env where
  width : ℚ
  height : ℚ
  boundsMargin : ℚ
  borderFriction : ℚ

/-- The value of the tangential coordinate after one boundary block's
Coulomb-style friction rule, starting from coordinate `c` with stored
tangential velocity `j` and available friction impulse `k`:
`if (|j| <= k) { if (j * t > 0) c -= j } else if (k > 0) c -= k * t` with
`t = Math.sign(j)`. -/
def frictionCoord (c j k : ℚ) : ℚ :=
  if |j| ≤ k then
    (if 0 < j * sign j then c - j else c)
  else if 0 < k then c - k * sign j
  else c

/-- First block of `Solver.applyBounds` (`position.x < boundsMargin`): set
`position.x` to the margin, copy that clamped `x` into `positionLast.x`
(the source writes `position.x` first and then reads it back), then the
friction rule on the tangential coordinate `y` using the stored
`velocity`. -/
def boundLeft (e : Env) (n : Node) : Node :=
  if n.position.x < e.boundsMargin then
    { n with
      position := ⟨e.boundsMargin,
        frictionCoord n.position.y n.velocity.y (|n.velocity.x * e.borderFriction|)⟩,
      positionLast := ⟨e.boundsMargin, n.positionLast.y⟩ }
  else n

/-- Second block of `Solver.applyBounds` (`position.x > width - boundsMargin`). -/
def boundRight (e : Env) (n : Node) : Node :=
  if e.width - e.boundsMargin < n.position.x then
    { n with
      position := ⟨e.width - e.boundsMargin,
        frictionCoord n.position.y n.velocity.y (|n.velocity.x * e.borderFriction|)⟩,
      positionLast := ⟨e.width - e.boundsMargin, n.positionLast.y⟩ }
  else n

/-- Third block of `Solver.applyBounds` (`position.y < boundsMargin`): clamp
`y`, friction on the tangential coordinate `x`. -/
def boundTop (e : Env) (n : Node) : Node :=
  if n.position.y < e.boundsMargin then
    { n with
      position := ⟨frictionCoord n.position.x n.velocity.x (|n.velocity.y * e.borderFriction|),
        e.boundsMargin⟩,
      positionLast := ⟨n.positionLast.x, e.boundsMargin⟩ }
  else n

/-- Fourth block of `Solver.applyBounds` (`position.y > height - boundsMargin`). -/
def boundBottom (e : Env) (n : Node) : Node :=
  if e.height - e.boundsMargin < n.position.y then
    { n with
      position := ⟨frictionCoord n.position.x n.velocity.x (|n.velocity.y * e.borderFriction|),
        e.height - e.boundsMargin⟩,
      positionLast := ⟨n.positionLast.x, e.height - e.boundsMargin⟩ }
  else n

/-- `Solver.applyBounds` restricted to one node: the four boundary blocks in
source order. -/
def applyBoundsNode (e : Env) (n : Node) : Node :=
  boundBottom e (boundTop e (boundRight e (boundLeft e n)))

/-- `Solver.applyBounds`: every node passes through the four blocks. -/
def applyBounds (e : Env) (nodes : List Node) : List Node :=
  nodes.map (applyBoundsNode e)

end Solver

/-! ### Helper lemmas -/

namespace Physics

theorem Vec.eta (v : Vec) : v = ⟨v.x, v.y⟩ := rfl

theorem Vec.eq_of_xy {a b : Vec} (hx : a.x = b.x) (hy : a.y = b.y) : a = b := by
  cases a; cases b; simp_all

/-- The scaled length identity: scaling a vector scales its Euclidean length
by the absolute value of the factor. -/
theorem Vec.length_multiplyScaler (v : Vec) (c : ℝ) :
    (v.multiplyScaler c).length = |c| * v.length := by
  simp only [Vec.length, Vec.length2, Vec.dot, Vec.multiplyScaler]
  rw [show v.x * c * (v.x * c) + v.y * c * (v.y * c) = c ^ 2 * (v.x * v.x + v.y * v.y) by
        ring,
      Real.sqrt_mul (sq_nonneg c), Real.sqrt_sq_eq_abs]

theorem Vec.add_subtract_cancel (p v : Vec) : (p.add v).subtract p = v := by
  apply Vec.eq_of_xy <;> simp [Vec.add, Vec.subtract]

/-- Distinct positions give a delta whose guard `delta.x != 0 || delta.y != 0`
in `Spring.relax` fires. -/
theorem sub_ne_of_position_ne {p q : Vec} (h : p ≠ q) :
    (p.subtract q).x ≠ 0 ∨ (p.subtract q).y ≠ 0 := by
  by_contra hc
  push_neg at hc
  obtain ⟨h1, h2⟩ := hc
  apply h
  apply Vec.eq_of_xy
  · simpa [Vec.subtract, sub_eq_zero] using h1
  · simpa [Vec.subtract, sub_eq_zero] using h2

/-- On a static node whose `positionLast` coincides with `position` and whose
`acceleration` is zero, each of the three node methods leaves `position`
unchanged and preserves that configuration. -/
theorem staticOp_preserves {n : Node} (hs : n.isStatic = true)
    (hpl : n.positionLast = n.position) (ha : n.acceleration = Vec.zero) (op : NodeOp) :
    (applyOp n op).position = n.position ∧ (applyOp n op).isStatic = true ∧
    (applyOp n op).positionLast = (applyOp n op).position ∧
    (applyOp n op).acceleration = Vec.zero := by
  cases op with
  | force f => simp [applyOp, Node.applyForce, hs, hpl, ha]
  | impulse i => simp [applyOp, Node.applyImpulse, hs, hpl, ha]
  | update dt =>
    have hpos : (applyOp n (.update dt)).position = n.position := by
      simp only [applyOp, Node.updatePosition, hpl, ha]
      apply Vec.eq_of_xy <;> simp [Vec.add, Vec.subtract, Vec.multiplyScaler, Vec.zero]
    refine ⟨hpos, by simp [applyOp, Node.updatePosition, hs], ?_,
      by simp [applyOp, Node.updatePosition]⟩
    rw [hpos]
    rfl

/-- Iterating the three node methods from a static, rest configuration never
moves `position`. -/
theorem staticOps_fix : ∀ (ops : List NodeOp) (n : Node), n.isStatic = true →
    n.positionLast = n.position → n.acceleration = Vec.zero →
    (applyOps n ops).position = n.position
  | [], _, _, _, _ => rfl
  | op :: tl, n, hs, hpl, ha => by
    obtain ⟨h1, h2, h3, h4⟩ := staticOp_preserves hs hpl ha op
    have := staticOps_fix tl (applyOp n op) h2 h3 h4
    simpa [applyOps, h1] using this

end Physics

/-- A fold of per-element maps is the map of per-element folds: applying each
behavior (or constraint) to every node in turn is applying to each node every
behavior (or constraint) in turn. -/
theorem listFoldlMapComm {α β : Type} (g : β → α → α) :
    ∀ (bs : List β) (ns : List α),
      bs.foldl (fun ns b => ns.map (g b)) ns =
        ns.map (fun n => bs.foldl (fun n b => g b n) n)
  | [], ns => by simp
  | b :: tl, ns => by
    rw [List.foldl_cons, listFoldlMapComm g tl, List.map_map]
    rfl

namespace Solver

theorem mul_sign_self (j : ℚ) : j * sign j = |j| := by
  rcases lt_trichotomy j 0 with h | h | h
  · simp [sign, h, asymm h, abs_of_neg h]
  · simp [sign, h]
  · simp [sign, h, abs_of_pos h]

/-- Full arrest: when the available friction impulse covers the tangential
speed, the friction rule moves the coordinate back by exactly `j`. -/
theorem frictionCoord_arrest {j k : ℚ} (c : ℚ) (h : |j| ≤ k) :
    frictionCoord c j k = c - j := by
  rw [frictionCoord, if_pos h]
  rcases eq_or_ne j 0 with hj | hj
  · simp [hj, sign]
  · rw [if_pos]
    rw [mul_sign_self]
    exact abs_pos.mpr hj

/-- Partial arrest: when the tangential speed exceeds the available friction
impulse, the friction rule moving the coordinate back by `k` against the
direction of motion. -/
theorem frictionCoord_slip {j k : ℚ} (c : ℚ) (h : k < |j|) (hk : 0 ≤ k) :
    frictionCoord c j k = c - k * sign j := by
  rw [frictionCoord, if_neg (not_le.mpr h)]
  rcases lt_or_eq_of_le hk with hk0 | hk0
  · rw [if_pos hk0]
  · rw [if_neg (by rw [← hk0]; exact lt_irrefl 0), ← hk0]
    ring

end Solver

/-! ### Claim theorems -/

/-- C2: `updatePosition(dt)` performs, in order: `velocity := position -
positionLast`; `positionLast := position`; `position := position + velocity +
acceleration * dt^2`; `acceleration := zero`; consequently a node whose
`acceleration` is the zero vector is displaced by exactly the prior velocity
`position - positionLast`. -/
theorem updatePosition_verlet (n : Physics.Node) (dt : ℝ) :
    (n.updatePosition dt).velocity = n.position.subtract n.positionLast ∧
    (n.updatePosition dt).positionLast = n.position ∧
    (n.updatePosition dt).position =
      (n.position.add (n.position.subtract n.positionLast)).add
        (n.acceleration.multiplyScaler (dt * dt)) ∧
    (n.updatePosition dt).acceleration = Physics.Vec.zero ∧
    (n.acceleration = Physics.Vec.zero →
      (n.updatePosition dt).position.subtract n.position =
        n.position.subtract n.positionLast) := by
  refine ⟨rfl, rfl, rfl, rfl, fun h => ?_⟩
  simp only [Physics.Node.updatePosition, h]
  apply Physics.Vec.eq_of_xy <;>
    simp [Physics.Vec.add, Physics.Vec.subtract, Physics.Vec.multiplyScaler,
      Physics.Vec.zero]

/-- Witness for C2 at a concrete node: position `(3, 4)`, last position
`(1, 1)`, zero acceleration, `dt = 1/60`. -/
theorem updatePosition_verlet_witness :
    (Physics.Node.mk ⟨3, 4⟩ ⟨1, 1⟩ Physics.Vec.zero Physics.Vec.zero false).acceleration =
      Physics.Vec.zero ∧
    ((Physics.Node.mk ⟨3, 4⟩ ⟨1, 1⟩ Physics.Vec.zero Physics.Vec.zero
        false).updatePosition (1 / 60)).position.subtract
        (Physics.Node.mk ⟨3, 4⟩ ⟨1, 1⟩ Physics.Vec.zero Physics.Vec.zero false).position =
      (Physics.Node.mk ⟨3, 4⟩ ⟨1, 1⟩ Physics.Vec.zero Physics.Vec.zero false).position.subtract
        (Physics.Node.mk ⟨3, 4⟩ ⟨1, 1⟩ Physics.Vec.zero Physics.Vec.zero false).positionLast :=
  ⟨rfl, (updatePosition_verlet _ _).2.2.2.2 rfl⟩

/-- C3: a node constructed at `p` and pinned (`isStatic = true`) keeps
`position = p` under every sequence of `applyForce` / `applyImpulse` /
`updatePosition` calls. -/
theorem static_position_invariant (p : Physics.Vec) (ops : List Physics.NodeOp) :
    (Physics.applyOps (Physics.Node.createStatic p) ops).position = p :=
  Physics.staticOps_fix ops (Physics.Node.createStatic p) rfl rfl rfl

/-- C6: a spring between two nodes at exactly identical positions applies no
correction: `relax()` returns both nodes unchanged (in particular no `NaN`
can enter either position, since neither position is written). -/
theorem relax_coincident_skip (a b : Physics.Node) (stiffness restLength : ℝ)
    (h : a.position = b.position) :
    Physics.relaxPair a b stiffness restLength = (a, b) := by
  rw [Physics.relaxPair]
  rw [if_neg]
  push_neg
  constructor <;> simp [Physics.Vec.subtract, h]

/-- Witness for C6: two coincident nodes at `(2, 5)`, one of them static. -/
theorem relax_coincident_skip_witness :
    (Physics.Node.create ⟨2, 5⟩).position = (Physics.Node.createStatic ⟨2, 5⟩).position ∧
    Physics.relaxPair (Physics.Node.create ⟨2, 5⟩) (Physics.Node.createStatic ⟨2, 5⟩) 1 3 =
      (Physics.Node.create ⟨2, 5⟩, Physics.Node.createStatic ⟨2, 5⟩) :=
  ⟨rfl, relax_coincident_skip _ _ _ _ rfl⟩

/-- C10: `updatePosition` never consults `isStatic` (flipping the flag
commutes with the integration step); a static node with `acceleration = zero`
whose `position` was overwritten away from `positionLast` is displaced by
that difference; and `applyForce` / `applyImpulse` are full no-ops on static
nodes, which is what preserves `position = positionLast` and
`acceleration = zero` there. -/
theorem updatePosition_not_consult_static (n : Physics.Node) (dt : ℝ)
    (f i : Physics.Vec) (b : Bool) :
    ({ n with isStatic := b } : Physics.Node).updatePosition dt =
      { n.updatePosition dt with isStatic := b } ∧
    (n.isStatic = true → n.acceleration = Physics.Vec.zero →
      (n.updatePosition dt).position =
        n.position.add (n.position.subtract n.positionLast)) ∧
    (n.isStatic = true → n.applyForce f = n ∧ n.applyImpulse i = n) := by
  refine ⟨rfl, fun _ ha => ?_, fun hs => ?_⟩
  · simp only [Physics.Node.updatePosition, ha]
    apply Physics.Vec.eq_of_xy <;>
      simp [Physics.Vec.add, Physics.Vec.subtract, Physics.Vec.multiplyScaler,
        Physics.Vec.zero]
  · constructor <;> simp [Physics.Node.applyForce, Physics.Node.applyImpulse, hs]

/-- Witness for C10 at a concrete pinned node whose position was directly
overwritten to `(5, 7)` while `positionLast` stayed at `(2, 3)`. -/
theorem updatePosition_not_consult_static_witness :
    ({ Physics.Node.createStatic ⟨2, 3⟩ with position := ⟨5, 7⟩ } : Physics.Node).isStatic =
      true ∧
    ({ Physics.Node.createStatic ⟨2, 3⟩ with position := ⟨5, 7⟩ } : Physics.Node).acceleration =
      Physics.Vec.zero ∧
    (({ Physics.Node.createStatic ⟨2, 3⟩ with position := ⟨5, 7⟩ } : Physics.Node).updatePosition
        (1 / 60)).position =
      Physics.Vec.add ⟨5, 7⟩ (Physics.Vec.subtract ⟨5, 7⟩ ⟨2, 3⟩) :=
  ⟨rfl, rfl,
    (updatePosition_not_consult_static _ (1 / 60) Physics.Vec.zero Physics.Vec.zero
        true).2.1 rfl rfl⟩

/-- C4: `World.step()` leaves `deltaTime` and the spring, behavior and
constraint collections untouched, and rewrites the node list by exactly the
fixed sequence: every node accumulates every registered behavior's force,
then every node is integrated by `updatePosition` with the world's own
`deltaTime`, then every node receives every registered hard constraint, then
every spring is relaxed in registration order.  `step` is a function of the
world state alone (`World → World`): it takes no external input. -/
theorem world_step_fixed_sequence (w : Physics.World) :
    w.step.deltaTime = w.deltaTime ∧
    w.step.springs = w.springs ∧
    w.step.behaviors = w.behaviors ∧
    w.step.constraints = w.constraints ∧
    w.step.nodes =
      w.springs.foldl (fun ns s => s.relaxIn ns)
        (((w.nodes.map (Physics.behaviorsPerNode w.behaviors)).map
            (fun n => n.updatePosition w.deltaTime)).map
          (Physics.constraintsPerNode w.constraints)) := by
  refine ⟨rfl, rfl, rfl, rfl, ?_⟩
  show (w.springs.foldl (fun ns s => s.relaxIn ns)
      (w.constraints.foldl (fun ns c => ns.map c.apply)
        ((w.behaviors.foldl (fun ns b => ns.map b.apply) w.nodes).map
          (fun n => n.updatePosition w.deltaTime)))) = _
  rw [listFoldlMapComm Physics.Behavior.apply, listFoldlMapComm Physics.Constraint.apply]
  rfl

/-- C5, counterexample: `Vector.normal()` on the zero vector does not return
the zero vector under JavaScript number semantics. -/
theorem normal_zero_not_zero :
    JsNum.jsNormal 0 0 ≠ (JsNum.JsVal.fin 0, JsNum.JsVal.fin 0) := by
  have h : Real.sqrt (0 * 0 + 0 * 0) = 0 := by norm_num
  simp [JsNum.jsNormal, JsNum.jsLength, JsNum.jsDiv, JsNum.jsMul, h]

/-- C5, amended: `Vector.normal()` is not internally guarded; on the zero
vector it computes `1 / 0 = Infinity` and then `0 * Infinity = NaN` in each
component.  (The zero-delta case is instead guarded by the caller:
`Spring.relax` skips any correction when `delta` is the zero vector, see the
C6 theorem.) -/
theorem normal_zero_produces_nan :
    JsNum.jsNormal 0 0 = (JsNum.JsVal.nan, JsNum.JsVal.nan) := by
  have h : Real.sqrt (0 * 0 + 0 * 0) = 0 := by norm_num
  simp [JsNum.jsNormal, JsNum.jsLength, JsNum.jsDiv, JsNum.jsMul, h]

/-- C7, counterexample: constructing a spring between nodes at `(0, 0)` and
`(1, 0)` with the explicitly supplied rest length `0` does not store `0` —
JavaScript's `if (restLength)` treats the number `0` as unsupplied and falls
back to the distance `1`. -/
theorem springRestLength_zero_not_stored :
    Physics.springRestLength (Physics.Node.create ⟨0, 0⟩) (Physics.Node.create ⟨1, 0⟩)
      (some 0) ≠ 0 := by
  have h : Physics.springRestLength (Physics.Node.create ⟨0, 0⟩)
      (Physics.Node.create ⟨1, 0⟩) (some 0) = 1 := by
    simp only [Physics.springRestLength, if_pos rfl, Physics.Node.create,
      Physics.Vec.length, Physics.Vec.length2, Physics.Vec.dot, Physics.Vec.subtract]
    norm_num
  rw [h]
  norm_num

/-- C7, amended: an explicitly supplied nonzero `restLength` is stored as
given; with no `restLength` supplied — or with the (falsy) value `0`
supplied — the stored `restLength` is the Euclidean distance between the two
nodes' positions at construction time. -/
theorem springRestLength_spec (a b : Physics.Node) (r : ℝ) (hr : r ≠ 0) :
    Physics.springRestLength a b (some r) = r ∧
    Physics.springRestLength a b none = (a.position.subtract b.position).length ∧
    Physics.springRestLength a b (some 0) = (a.position.subtract b.position).length := by
  refine ⟨?_, rfl, ?_⟩ <;> simp [Physics.springRestLength, hr]

/-- Witness for C7 at rest length `2` and nodes at `(0, 0)` and `(3, 4)`. -/
theorem springRestLength_spec_witness :
    (2 : ℝ) ≠ 0 ∧
    (Physics.springRestLength (Physics.Node.create ⟨0, 0⟩) (Physics.Node.create ⟨3, 4⟩)
        (some 2) = 2 ∧
      Physics.springRestLength (Physics.Node.create ⟨0, 0⟩) (Physics.Node.create ⟨3, 4⟩)
          none =
        ((Physics.Node.create ⟨0, 0⟩).position.subtract
            (Physics.Node.create ⟨3, 4⟩).position).length ∧
      Physics.springRestLength (Physics.Node.create ⟨0, 0⟩) (Physics.Node.create ⟨3, 4⟩)
          (some 0) =
        ((Physics.Node.create ⟨0, 0⟩).position.subtract
            (Physics.Node.create ⟨3, 4⟩).position).length) :=
  ⟨by norm_num, springRestLength_spec _ _ 2 (by norm_num)⟩

/-- C8, counterexample: a corner node violating both the left and the top
boundary.  Solver `width = height = 100`, `boundsMargin = 10`,
`borderFriction = 1`; node at `(5, 5)` with stored velocity `(2, 3)`.  The
left block clamps `x` to `10`, but the top block's friction rule then
subtracts the tangential velocity `2` from `x`, leaving `position.x = 8`,
not the margin. -/
theorem boundary_clamp_corner_cex :
    ¬ ((Solver.applyBoundsNode ⟨100, 100, 10, 1⟩
        ⟨⟨5, 5⟩, ⟨5, 5⟩, ⟨0, 0⟩, ⟨2, 3⟩⟩).position.x = 10) := by
  norm_num [Solver.applyBoundsNode, Solver.boundLeft, Solver.boundRight,
    Solver.boundTop, Solver.boundBottom, Solver.frictionCoord, Solver.sign]

/-- C8, amended: for a node with `position.x < margin`, provided
`margin ≤ width - margin` and the node is not simultaneously clamped by a
horizontal boundary (after the left block its `y` lies within
`[margin, height - margin]`), one application of `applyBounds` sets
`position.x` to exactly the margin and `positionLast.x` to the same value,
so the recomputed normal-axis velocity `position.x - positionLast.x` is
zero. -/
theorem boundary_clamp (e : Solver.Env) (n : Solver.Node)
    (h1 : n.position.x < e.boundsMargin)
    (h2 : e.boundsMargin ≤ e.width - e.boundsMargin)
    (h3 : e.boundsMargin ≤ (Solver.boundLeft e n).position.y)
    (h4 : (Solver.boundLeft e n).position.y ≤ e.height - e.boundsMargin) :
    (Solver.applyBoundsNode e n).position.x = e.boundsMargin ∧
    (Solver.applyBoundsNode e n).positionLast.x = e.boundsMargin ∧
    (Solver.applyBoundsNode e n).position.x -
      (Solver.applyBoundsNode e n).positionLast.x = 0 := by
  have hL : (Solver.boundLeft e n).position.x = e.boundsMargin ∧
      (Solver.boundLeft e n).positionLast.x = e.boundsMargin := by
    rw [Solver.boundLeft, if_pos h1]
    exact ⟨rfl, rfl⟩
  have hR : Solver.boundRight e (Solver.boundLeft e n) = Solver.boundLeft e n := by
    rw [Solver.boundRight, if_neg]
    rw [hL.1]
    exact not_lt.mpr h2
  have hT : Solver.boundTop e (Solver.boundLeft e n) = Solver.boundLeft e n := by
    rw [Solver.boundTop, if_neg (not_lt.mpr h3)]
  have hB : Solver.boundBottom e (Solver.boundLeft e n) = Solver.boundLeft e n := by
    rw [Solver.boundBottom, if_neg (not_lt.mpr h4)]
  have hall : Solver.applyBoundsNode e n = Solver.boundLeft e n := by
    rw [Solver.applyBoundsNode, hR, hT, hB]
  rw [hall]
  exact ⟨hL.1, hL.2, by rw [hL.1, hL.2, sub_self]⟩

/-- Witness for the amended C8: solver `100 × 100`, margin `10`, friction
`1`; node at `(5, 50)` with last position `(7, 50)` and stored velocity
`(2, 0)`. -/
theorem boundary_clamp_witness :
    (5 : ℚ) < 10 ∧ (10 : ℚ) ≤ 100 - 10 ∧
    (10 : ℚ) ≤ (Solver.boundLeft ⟨100, 100, 10, 1⟩
        ⟨⟨5, 50⟩, ⟨7, 50⟩, ⟨0, 0⟩, ⟨2, 0⟩⟩).position.y ∧
    (Solver.boundLeft ⟨100, 100, 10, 1⟩
        ⟨⟨5, 50⟩, ⟨7, 50⟩, ⟨0, 0⟩, ⟨2, 0⟩⟩).position.y ≤ 100 - 10 ∧
    (Solver.applyBoundsNode ⟨100, 100, 10, 1⟩
        ⟨⟨5, 50⟩, ⟨7, 50⟩, ⟨0, 0⟩, ⟨2, 0⟩⟩).position.x = 10 ∧
    (Solver.applyBoundsNode ⟨100, 100, 10, 1⟩
        ⟨⟨5, 50⟩, ⟨7, 50⟩, ⟨0, 0⟩, ⟨2, 0⟩⟩).positionLast.x = 10 ∧
    (Solver.applyBoundsNode ⟨100, 100, 10, 1⟩
          ⟨⟨5, 50⟩, ⟨7, 50⟩, ⟨0, 0⟩, ⟨2, 0⟩⟩).position.x -
        (Solver.applyBoundsNode ⟨100, 100, 10, 1⟩
          ⟨⟨5, 50⟩, ⟨7, 50⟩, ⟨0, 0⟩, ⟨2, 0⟩⟩).positionLast.x = 0 :=
  ⟨by norm_num, by norm_num,
    by norm_num [Solver.boundLeft, Solver.frictionCoord, Solver.sign],
    by norm_num [Solver.boundLeft, Solver.frictionCoord, Solver.sign],
    boundary_clamp _ _ (by norm_num) (by norm_num)
      (by norm_num [Solver.boundLeft, Solver.frictionCoord, Solver.sign])
      (by norm_num [Solver.boundLeft, Solver.frictionCoord, Solver.sign])⟩

/-- C9: at each of the four boundary blocks, for a node that is clamped
there and whose stored tangential velocity agrees with the Verlet difference
`position - positionLast` on the tangential axis, the friction rule with
tangential speed `j` and available friction impulse
`k = |normal velocity * frictionCoefficient|` behaves as claimed: if
`|j| ≤ k`, the next Verlet integration observes a tangential velocity of
exactly `0`; if `k < |j|`, it observes `j - k * sign j`, i.e. the tangential
velocity reduced by exactly `k` against the direction of motion. -/
theorem boundary_friction_tangential (e : Solver.Env) (n : Solver.Node) (dt : ℚ) :
    (n.position.x < e.boundsMargin →
      n.velocity.y = n.position.y - n.positionLast.y →
      ((|n.velocity.y| ≤ |n.velocity.x * e.borderFriction| →
          ((Solver.boundLeft e n).update dt).velocity.y = 0) ∧
        (|n.velocity.x * e.borderFriction| < |n.velocity.y| →
          ((Solver.boundLeft e n).update dt).velocity.y =
            n.velocity.y - |n.velocity.x * e.borderFriction| * Solver.sign n.velocity.y))) ∧
    (e.width - e.boundsMargin < n.position.x →
      n.velocity.y = n.position.y - n.positionLast.y →
      ((|n.velocity.y| ≤ |n.velocity.x * e.borderFriction| →
          ((Solver.boundRight e n).update dt).velocity.y = 0) ∧
        (|n.velocity.x * e.borderFriction| < |n.velocity.y| →
          ((Solver.boundRight e n).update dt).velocity.y =
            n.velocity.y - |n.velocity.x * e.borderFriction| * Solver.sign n.velocity.y))) ∧
    (n.position.y < e.boundsMargin →
      n.velocity.x = n.position.x - n.positionLast.x →
      ((|n.velocity.x| ≤ |n.velocity.y * e.borderFriction| →
          ((Solver.boundTop e n).update dt).velocity.x = 0) ∧
        (|n.velocity.y * e.borderFriction| < |n.velocity.x| →
          ((Solver.boundTop e n).update dt).velocity.x =
            n.velocity.x - |n.velocity.y * e.borderFriction| * Solver.sign n.velocity.x))) ∧
    (e.height - e.boundsMargin < n.position.y →
      n.velocity.x = n.position.x - n.positionLast.x →
      ((|n.velocity.x| ≤ |n.velocity.y * e.borderFriction| →
          ((Solver.boundBottom e n).update dt).velocity.x = 0) ∧
        (|n.velocity.y * e.borderFriction| < |n.velocity.x| →
          ((Solver.boundBottom e n).update dt).velocity.x =
            n.velocity.x - |n.velocity.y * e.borderFriction| * Solver.sign n.velocity.x))) := by
  refine ⟨fun hc hv => ?_, fun hc hv => ?_, fun hc hv => ?_, fun hc hv => ?_⟩ <;>
    [rw [Solver.boundLeft, if_pos hc]; rw [Solver.boundRight, if_pos hc];
      rw [Solver.boundTop, if_pos hc]; rw [Solver.boundBottom, if_pos hc]] <;>
    constructor <;> intro hjk <;>
    simp only [Solver.Node.update, Solver.Vec.subtract, Solver.Vec.add,
      Solver.Vec.multiplyScaler] <;>
    [rw [Solver.frictionCoord_arrest _ hjk]; rw [Solver.frictionCoord_slip _ hjk (abs_nonneg _)];
      rw [Solver.frictionCoord_arrest _ hjk]; rw [Solver.frictionCoord_slip _ hjk (abs_nonneg _)];
      rw [Solver.frictionCoord_arrest _ hjk]; rw [Solver.frictionCoord_slip _ hjk (abs_nonneg _)];
      rw [Solver.frictionCoord_arrest _ hjk]; rw [Solver.frictionCoord_slip _ hjk (abs_nonneg _)]] <;>
    rw [hv] <;> ring

/-- Witness for C9 at the left boundary, full-arrest case: solver
`100 × 100`, margin `10`, friction `1`; node at `(5, 50)`, last position
`(5, 47)`, stored velocity `(4, 3)`, so `j = 3`, `k = 4`, `|j| ≤ k`. -/
theorem boundary_friction_tangential_witness :
    (5 : ℚ) < 10 ∧
    ((3 : ℚ) = 50 - 47) ∧
    (|(3 : ℚ)| ≤ |(4 : ℚ) * 1|) ∧
    ((Solver.boundLeft ⟨100, 100, 10, 1⟩
        ⟨⟨5, 50⟩, ⟨5, 47⟩, ⟨0, 0⟩, ⟨4, 3⟩⟩).update (1 / 60)).velocity.y = 0 :=
  ⟨by norm_num, by norm_num, by norm_num,
    ((boundary_friction_tangential ⟨100, 100, 10, 1⟩
        ⟨⟨5, 50⟩, ⟨5, 47⟩, ⟨0, 0⟩, ⟨4, 3⟩⟩ (1 / 60)).1 (by norm_num) (by norm_num)).1
      (by norm_num)⟩

/-- C1: for a spring whose endpoint positions differ, `relax()` distributes
the corrective impulse `movement = normal(delta) * stiffness *
(length(delta) - restLength)` per the static-flag table — neither static:
`-0.5 * movement` to A and `+0.5 * movement` to B; A static: `+movement` to
B only; B static: `-0.2 * movement` to A only; both static: no change — and
consequently, for an identical initial offset, the free node's displacement
magnitude in the B-static case is exactly `0.2` times its displacement in
the mirrored A-static case. -/
theorem spring_relax_distribution (a b : Physics.Node) (k r : ℝ)
    (hd : a.position ≠ b.position) :
    (a.isStatic = false → b.isStatic = false →
      (Physics.relaxPair a b k r).1.position =
        a.position.add ((Physics.relaxMovement a b k r).multiplyScaler (-0.5)) ∧
      (Physics.relaxPair a b k r).2.position =
        b.position.add ((Physics.relaxMovement a b k r).multiplyScaler 0.5)) ∧
    (a.isStatic = true → b.isStatic = false →
      (Physics.relaxPair a b k r).1.position = a.position ∧
      (Physics.relaxPair a b k r).2.position =
        b.position.add (Physics.relaxMovement a b k r)) ∧
    (a.isStatic = false → b.isStatic = true →
      (Physics.relaxPair a b k r).1.position =
        a.position.add ((Physics.relaxMovement a b k r).multiplyScaler (-0.2)) ∧
      (Physics.relaxPair a b k r).2.position = b.position) ∧
    (a.isStatic = true → b.isStatic = true →
      (Physics.relaxPair a b k r).1.position = a.position ∧
      (Physics.relaxPair a b k r).2.position = b.position) ∧
    ((Physics.relaxPair (Physics.Node.create a.position)
          (Physics.Node.createStatic b.position) k r).1.position.subtract
        a.position).length =
      0.2 * ((Physics.relaxPair (Physics.Node.createStatic a.position)
            (Physics.Node.create b.position) k r).2.position.subtract
          b.position).length := by
  have hg := Physics.sub_ne_of_position_ne hd
  refine ⟨fun ha hb => ?_, fun ha hb => ?_, fun ha hb => ?_, fun ha hb => ?_, ?_⟩
  · constructor <;> simp [Physics.relaxPair, hg, ha, hb, Physics.Node.applyImpulse]
  · constructor <;> simp [Physics.relaxPair, hg, ha, hb, Physics.Node.applyImpulse]
  · constructor <;> simp [Physics.relaxPair, hg, ha, hb, Physics.Node.applyImpulse]
  · constructor <;> simp [Physics.relaxPair, hg, ha, hb, Physics.Node.applyImpulse]
  · simp only [Physics.Node.create, Physics.Node.createStatic]
    simp [Physics.relaxPair, hg, Physics.Node.applyImpulse, Physics.relaxMovement,
      Physics.Vec.add_subtract_cancel, Physics.Vec.length_multiplyScaler]
    norm_num

/-- Witness for C1 at free nodes `(3, 4)` and `(0, 0)` with stiffness `1`
and rest length `1`. -/
theorem spring_relax_distribution_witness :
    (Physics.Node.create ⟨3, 4⟩).position ≠ (Physics.Node.create ⟨0, 0⟩).position ∧
    (((Physics.Node.create ⟨3, 4⟩).isStatic = false →
        (Physics.Node.create ⟨0, 0⟩).isStatic = false →
        (Physics.relaxPair (Physics.Node.create ⟨3, 4⟩) (Physics.Node.create ⟨0, 0⟩)
            1 1).1.position =
          (Physics.Node.create ⟨3, 4⟩).position.add
            ((Physics.relaxMovement (Physics.Node.create ⟨3, 4⟩)
                (Physics.Node.create ⟨0, 0⟩) 1 1).multiplyScaler (-0.5)) ∧
        (Physics.relaxPair (Physics.Node.create ⟨3, 4⟩) (Physics.Node.create ⟨0, 0⟩)
            1 1).2.position =
          (Physics.Node.create ⟨0, 0⟩).position.add
            ((Physics.relaxMovement (Physics.Node.create ⟨3, 4⟩)
                (Physics.Node.create ⟨0, 0⟩) 1 1).multiplyScaler 0.5)) ∧
      ((Physics.Node.create ⟨3, 4⟩).isStatic = true →
        (Physics.Node.create ⟨0, 0⟩).isStatic = false →
        (Physics.relaxPair (Physics.Node.create ⟨3, 4⟩) (Physics.Node.create ⟨0, 0⟩)
            1 1).1.position = (Physics.Node.create ⟨3, 4⟩).position ∧
        (Physics.relaxPair (Physics.Node.create ⟨3, 4⟩) (Physics.Node.create ⟨0, 0⟩)
            1 1).2.position =
          (Physics.Node.create ⟨0, 0⟩).position.add
            (Physics.relaxMovement (Physics.Node.create ⟨3, 4⟩)
              (Physics.Node.create ⟨0, 0⟩) 1 1)) ∧
      ((Physics.Node.create ⟨3, 4⟩).isStatic = false →
        (Physics.Node.create ⟨0, 0⟩).isStatic = true →
        (Physics.relaxPair (Physics.Node.create ⟨3, 4⟩) (Physics.Node.create ⟨0, 0⟩)
            1 1).1.position =
          (Physics.Node.create ⟨3, 4⟩).position.add
            ((Physics.relaxMovement (Physics.Node.create ⟨3, 4⟩)
                (Physics.Node.create ⟨0, 0⟩) 1 1).multiplyScaler (-0.2)) ∧
        (Physics.relaxPair (Physics.Node.create ⟨3, 4⟩) (Physics.Node.create ⟨0, 0⟩)
            1 1).2.position = (Physics.Node.create ⟨0, 0⟩).position) ∧
      ((Physics.Node.create ⟨3, 4⟩).isStatic = true →
        (Physics.Node.create ⟨0, 0⟩).isStatic = true →
        (Physics.relaxPair (Physics.Node.create ⟨3, 4⟩) (Physics.Node.create ⟨0, 0⟩)
            1 1).1.position = (Physics.Node.create ⟨3, 4⟩).position ∧
        (Physics.relaxPair (Physics.Node.create ⟨3, 4⟩) (Physics.Node.create ⟨0, 0⟩)
            1 1).2.position = (Physics.Node.create ⟨0, 0⟩).position) ∧
      ((Physics.relaxPair (Physics.Node.create (Physics.Node.create ⟨3, 4⟩).position)
            (Physics.Node.createStatic (Physics.Node.create ⟨0, 0⟩).position) 1
            1).1.position.subtract (Physics.Node.create ⟨3, 4⟩).position).length =
        0.2 * ((Physics.relaxPair
              (Physics.Node.createStatic (Physics.Node.create ⟨3, 4⟩).position)
              (Physics.Node.create (Physics.Node.create ⟨0, 0⟩).position) 1
              1).2.position.subtract (Physics.Node.create ⟨0, 0⟩).position).length) :=
  ⟨by norm_num [Physics.Node.create, Physics.Vec.mk.injEq],
    spring_relax_distribution _ _ 1 1
      (by norm_num [Physics.Node.create, Physics.Vec.mk.injEq])⟩
